import Mathlib

/-!
Shallow embedding of the ChRIS MCP server core
(src/mcp-servers/chris/server.py): the pipeline definition, the in-memory
job store, the tools run_pipeline / get_job_status / get_pacs_image /
list_chris_plugins, and the REST wrapper pipeline_run.

Python wall-clock values (time.time) are modelled as rationals.  Python
int(x) truncates toward zero; float floor-division x // y is a true floor.
A tool body that would raise an exception is modelled by returning none.
-/

namespace ChAI

/-- Python int(x) on a real value: truncation toward zero. -/
def pyTrunc (q : ℚ) : ℤ := if q < 0 then ⌈q⌉ else ⌊q⌋

/-- Python list indexing xs[i]: negative indices count from the end;
an out-of-range index raises IndexError, modelled as none. -/
def pyListGet {α : Type} (xs : List α) (i : ℤ) : Option α :=
  let j : ℤ := if i < 0 then (xs.length : ℤ) + i else i
  if 0 ≤ j then xs.get? j.toNat else none

/-- One entry of PIPELINE_DEF plugin_tree (server.py lines 25-29). -/
structure StepSpec where
  title : String
  plugin : String
  previous : Option String
deriving Repr, DecidableEq

/-- PIPELINE_DEF name field (server.py line 23). -/
def PIPELINE_DEF_name : String := "Leg Length Discrepancy Full Workflow v20240705"

/-- PIPELINE_DEF plugin_tree (server.py lines 24-30). -/
def plugin_tree : List StepSpec :=
  [ { title := "root-0", plugin := "pl-simpledsapp v2.1.0", previous := none },
    { title := "dcm-to-mha-1", plugin := "pl-dcm2mha_cnvtr v1.2.24", previous := some "root-0" },
    { title := "joiner-2", plugin := "pl-tsjoiner v1.1.3", previous := some "dcm-to-mha-1" },
    { title := "segmentor-3", plugin := "pl-legseg v2.3.9", previous := some "joiner-2" },
    { title := "analyzer-4", plugin := "pl-legmeasure v3.1.7", previous := some "segmentor-3" } ]

/-- A record of the JOBS table (server.py lines 84-89). -/
structure Job where
  pipeline_id : String
  mrn : String
  steps : List StepSpec
  start_time : ℚ
deriving Repr, DecidableEq

/-- The in-memory JOBS dict, newest binding first; JOBS[k] = v prepends,
so lookup of the first matching key gives Python dict-overwrite semantics. -/
abbrev Store := List (String × Job)

/-- JOBS.get(job_id) (server.py line 94). -/
def lookup (jobs : Store) (job_id : String) : Option Job :=
  (jobs.find? (fun p => p.1 == job_id)).map Prod.snd

/-- JSON values, as produced by resp.json() and by the tool payload dicts.
Dicts are association lists in insertion order. -/
inductive JVal : Type where
  | null : JVal
  | str : String → JVal
  | num : ℤ → JVal
  | arr : List JVal → JVal
  | obj : List (String × JVal) → JVal

/-- wrap_tool_output (server.py lines 44-49): the uniform tool envelope.
The timestamp string, time.strftime of the wall clock, is a parameter. -/
def wrap_tool_output (tool_name : String) (ts : String) (payload : JVal) : JVal :=
  .obj [("tool", .str tool_name), ("output", payload), ("timestamp", .str ts)]

/-- get_pacs_image (server.py lines 74-76): the output payload, a url field
built deterministically from the mrn; no network call, never fails. -/
def get_pacs_image (mrn : String) : JVal :=
  .obj [("url", .str ("https://fakepacs.org/images/" ++ mrn ++ ".png"))]

/-- The job identifier generated by run_pipeline (server.py line 83):
the string "job-" followed by int(time.time()). -/
def jobIdOfTime (t : ℚ) : String := "job-" ++ toString (pyTrunc t)

/-- run_pipeline (server.py lines 82-90).  The two time.time() reads in the
body (one for the identifier, one for start_time) are modelled as the single
invocation instant t.  Returns the output payload and the updated JOBS
table. -/
def run_pipeline (mrn : String) (t : ℚ) (jobs : Store) : JVal × Store :=
  let job_id := jobIdOfTime t
  let job : Job :=
    { pipeline_id := PIPELINE_DEF_name
      mrn := mrn
      steps := plugin_tree
      start_time := t }
  (.obj [("job_id", .str job_id)], (job_id, job) :: jobs)

/-- pipeline_run (server.py lines 127-128): the REST endpoint body calls
run_pipeline() with no argument, so mrn defaults to "12345" and the
pipeline_id path parameter is never read. -/
def pipeline_run (pipeline_id : String) (t : ℚ) (jobs : Store) : JVal × Store :=
  run_pipeline "12345" t jobs

/-- Per-step duration in seconds (server.py line 99). -/
def per_step : ℚ := 30

/-- The clamped step index computed at server.py line 100:
min(int(elapsed // per_step), len(steps) - 1). -/
def stepIdx (job : Job) (now : ℚ) : ℤ :=
  min ⌊(now - job.start_time) / per_step⌋ ((job.steps.length : ℤ) - 1)

/-- The output payload of get_job_status on a found job
(server.py lines 106-113). -/
structure JobStatus where
  job_id : String
  status : String
  step : ℤ
  total_steps : ℕ
  step_title : String
  percent_complete : ℤ
deriving Repr, DecidableEq

/-- Result of get_job_status: the not-found error payload or a status
payload. -/
inductive StatusResult : Type where
  | notFound : StatusResult
  | ok : JobStatus → StatusResult
deriving Repr, DecidableEq

/-- The JSON payload serialized for a StatusResult (server.py lines 96 and
106-113). -/
def statusPayload : StatusResult → JVal
  | .notFound => .obj [("error", .str "job not found")]
  | .ok s => .obj
      [ ("job_id", .str s.job_id)
      , ("status", .str s.status)
      , ("step", .num s.step)
      , ("total_steps", .num s.total_steps)
      , ("step_title", .str s.step_title)
      , ("percent_complete", .num s.percent_complete) ]

/-- The completion test at server.py line 101:
elapsed >= per_step * len(steps). -/
def completedAt (job : Job) (now : ℚ) : Bool :=
  decide (per_step * (job.steps.length : ℚ) ≤ now - job.start_time)

/-- The step number at server.py line 103:
len(steps) if completed else idx + 1. -/
def stepNum (job : Job) (now : ℚ) : ℤ :=
  if completedAt job now then (job.steps.length : ℤ) else stepIdx job now + 1

/-- The list access at server.py line 104:
steps[-1] if completed else steps[idx]. -/
def currentStep (job : Job) (now : ℚ) : Option StepSpec :=
  if completedAt job now then pyListGet job.steps (-1)
  else pyListGet job.steps (stepIdx job now)

/-- The percentage at server.py line 105: int(step_num / len(steps) * 100).
Rational division stands in for Python float division. -/
def percentAt (job : Job) (now : ℚ) : ℤ :=
  pyTrunc ((stepNum job now : ℚ) / (job.steps.length : ℚ) * 100)

/-- get_job_status (server.py lines 93-113), with the query instant now in
place of the time.time() read at line 98.  A missing job id yields the
error payload; an out-of-range list access at line 104 raises IndexError,
modelled as none. -/
def get_job_status (jobs : Store) (job_id : String) (now : ℚ) : Option StatusResult :=
  match lookup jobs job_id with
  | none => some .notFound
  | some job =>
    match currentStep job now with
    | none => none
    | some st =>
      some (.ok
        { job_id := job_id
          status := if completedAt job now then "COMPLETED" else "RUNNING"
          step := stepNum job now
          total_steps := job.steps.length
          step_title := st.title
          percent_complete := percentAt job now })

/-- The timeout passed to the catalog GET (server.py line 61). -/
def httpTimeout : ℚ := 10

/-- Outcome of the guarded block at server.py lines 60-63: failure is any
exception raised inside the try (connect error, expired timeout, the
raise_for_status of a non-2xx response, a JSON decode error), carrying the
str(e) message; success carries the decoded body data = resp.json(). -/
inductive FetchOutcome : Type where
  | failure : String → FetchOutcome
  | success : JVal → FetchOutcome

/-- Python j.get(k, dflt): AttributeError (none) unless j is a dict. -/
def pyDictGet (j : JVal) (k : String) (dflt : JVal) : Option JVal :=
  match j with
  | .obj kvs => some (((kvs.find? (fun p => p.1 == k)).map Prod.snd).getD dflt)
  | _ => none

/-- Python j[k] on a dict: KeyError (none) when the key is missing, and
TypeError (none) when j is not a dict. -/
def pySubscript (j : JVal) (k : String) : Option JVal :=
  match j with
  | .obj kvs => (kvs.find? (fun p => p.1 == k)).map Prod.snd
  | _ => none

/-- Iteration over a JSON value; only lists are modelled as iterable. -/
def asArr : JVal → Option (List JVal)
  | .arr xs => some xs
  | _ => none

/-- A list comprehension whose element expression may raise: the whole
comprehension raises as soon as one element does. -/
def optionMap {α β : Type} (f : α → Option β) : List α → Option (List β)
  | [] => some []
  | x :: xs =>
    match f x, optionMap f xs with
    | some y, some ys => some (y :: ys)
    | _, _ => none

/-- Result of list_chris_plugins: the error payload from the except branch,
or the plugins payload.  Each plugin entry is the name-to-value pairs built
by the inner dict comprehension at server.py line 67, kept as a pair list in
iteration order. -/
inductive PluginsResult : Type where
  | error : String → PluginsResult
  | plugins : List (List (JVal × JVal)) → PluginsResult

/-- Python hashability of a decoded JSON value.  The dict comprehension at
server.py line 67 uses d["name"] as a dict key, and json decoding yields
str, int, float, bool or None keys (hashable) versus list or dict values,
which raise TypeError (unhashable type) when used as a key. -/
def hashable : JVal → Bool
  | .arr _ => false
  | .obj _ => false
  | _ => true

/-- The inner dict comprehension for one item (server.py line 67):
item.get("data", []) then d["name"], d["value"] for each d; an unhashable
name value raises TypeError at the key position, modelled as none. -/
def pluginEntry (item : JVal) : Option (List (JVal × JVal)) :=
  match pyDictGet item "data" (.arr []) with
  | none => none
  | some dataVal =>
    match asArr dataVal with
    | none => none
    | some ds =>
      optionMap (fun d =>
        match pySubscript d "name", pySubscript d "value" with
        | some n, some v => if hashable n then some (n, v) else none
        | _, _ => none) ds

/-- list_chris_plugins (server.py lines 56-68) as a function of the fetch
outcome.  The except clause covers only the fetch itself; the item
processing at lines 66-67 runs after it, so an exception there escapes the
tool body, modelled as none. -/
def list_chris_plugins (outcome : FetchOutcome) : Option PluginsResult :=
  match outcome with
  | .failure msg => some (.error msg)
  | .success data =>
    match pyDictGet data "collection" (.obj []) with
    | none => none
    | some coll =>
      match pyDictGet coll "items" (.arr []) with
      | none => none
      | some itemsVal =>
        match asArr itemsVal with
        | none => none
        | some items => (optionMap pluginEntry items).map .plugins

/-- A response body on which the post-fetch processing of
list_chris_plugins cannot raise: every item yields a plugin entry, i.e.
its data entries are dicts carrying "name" and "value" keys whose name
values are hashable. -/
def wfBody (data : JVal) : Bool :=
  match pyDictGet data "collection" (.obj []) with
  | none => false
  | some coll =>
    match pyDictGet coll "items" (.arr []) with
    | none => false
    | some itemsVal =>
      match asArr itemsVal with
      | none => false
      | some items => items.all (fun it => (pluginEntry it).isSome)

/-- The stores reachable by the program: JOBS starts empty (server.py
line 34) and run_pipeline is its only writer. -/
inductive Reachable : Store → Prop where
  | nil : Reachable []
  | create (mrn : String) (t : ℚ) (s : Store) :
      Reachable s → Reachable (run_pipeline mrn t s).2

/-- The job record created by a run_pipeline invocation at instant t. -/
def jobAt (mrn : String) (t : ℚ) : Job :=
  { pipeline_id := PIPELINE_DEF_name
    mrn := mrn
    steps := plugin_tree
    start_time := t }

/-- A concrete one-job store: run_pipeline at t = 1000 on the empty table. -/
def demoStore : Store := (run_pipeline "12345" 1000 []).2

/-! ## Helper lemmas -/

theorem per_step_pos : (0 : ℚ) < per_step := by norm_num [per_step]

theorem lookup_nil (id : String) : lookup [] id = none := rfl

theorem lookup_cons (k : String) (j : Job) (s : Store) (id : String) :
    lookup ((k, j) :: s) id = if k == id then some j else lookup s id := by
  by_cases h : (k == id) = true <;> simp [lookup, List.find?, h]

/-- Every record of a reachable store snapshots the built-in step list. -/
theorem steps_of_reachable {s : Store} (hr : Reachable s) :
    ∀ {id : String} {job : Job}, lookup s id = some job → job.steps = plugin_tree := by
  induction hr with
  | nil => intro id job hj; rw [lookup_nil] at hj; exact (Option.noConfusion hj)
  | create mrn t s _ ih =>
    intro id job hj
    rw [show (run_pipeline mrn t s).2 = (jobIdOfTime t, jobAt mrn t) :: s from rfl,
      lookup_cons] at hj
    by_cases h : (jobIdOfTime t == id) = true
    · rw [if_pos h] at hj
      cases hj
      rfl
    · rw [if_neg h] at hj
      exact ih hj

theorem plugin_tree_length : plugin_tree.length = 5 := rfl

theorem pyListGet_of_nonneg_lt {α : Type} {xs : List α} {i : ℤ}
    (h0 : 0 ≤ i) (hl : i < (xs.length : ℤ)) : ∃ a, pyListGet xs i = some a := by
  have hneg : ¬ i < 0 := not_lt.mpr h0
  have ht : i.toNat < xs.length := by omega
  refine ⟨xs.get ⟨i.toNat, ht⟩, ?_⟩
  simp only [pyListGet, hneg, if_false, if_pos h0]
  exact List.get?_eq_get ht

theorem pyListGet_neg_one {α : Type} {xs : List α} (hn : xs ≠ []) :
    ∃ a, pyListGet xs (-1) = some a := by
  have hl : 0 < xs.length := List.length_pos.mpr hn
  have h1 : ((-1 : ℤ) < 0) := by norm_num
  have hj : (0 : ℤ) ≤ (xs.length : ℤ) + (-1) := by omega
  have ht : ((xs.length : ℤ) + (-1)).toNat < xs.length := by omega
  refine ⟨xs.get ⟨((xs.length : ℤ) + (-1)).toNat, ht⟩, ?_⟩
  simp only [pyListGet, h1, if_true, if_pos hj]
  exact List.get?_eq_get ht

theorem completedAt_true_iff (job : Job) (now : ℚ) :
    completedAt job now = true ↔
      per_step * (job.steps.length : ℚ) ≤ now - job.start_time := by
  simp [completedAt]

theorem completedAt_mono {job : Job} {now1 now2 : ℚ} (h : now1 ≤ now2)
    (hc : completedAt job now1 = true) : completedAt job now2 = true := by
  rw [completedAt_true_iff] at hc ⊢
  linarith

theorem stepIdx_nonneg {job : Job} {now : ℚ} (hn : job.steps ≠ [])
    (h0 : job.start_time ≤ now) : 0 ≤ stepIdx job now := by
  have hl : 0 < job.steps.length := List.length_pos.mpr hn
  have he : (0 : ℚ) ≤ (now - job.start_time) / per_step :=
    div_nonneg (by linarith) (le_of_lt per_step_pos)
  have hf : (0 : ℤ) ≤ ⌊(now - job.start_time) / per_step⌋ := Int.floor_nonneg.mpr he
  exact le_min hf (by omega)

theorem stepIdx_le (job : Job) (now : ℚ) :
    stepIdx job now ≤ (job.steps.length : ℤ) - 1 := min_le_right _ _

theorem stepIdx_mono (job : Job) {now1 now2 : ℚ} (h : now1 ≤ now2) :
    stepIdx job now1 ≤ stepIdx job now2 := by
  have hd : (now1 - job.start_time) / per_step ≤ (now2 - job.start_time) / per_step :=
    (div_le_div_iff_of_pos_right per_step_pos).mpr (by linarith)
  exact min_le_min (Int.floor_le_floor hd) (le_refl _)

theorem currentStep_some {job : Job} {now : ℚ} (hn : job.steps ≠ [])
    (h0 : job.start_time ≤ now) : ∃ st, currentStep job now = some st := by
  unfold currentStep
  by_cases hc : completedAt job now = true
  · rw [if_pos hc]
    exact pyListGet_neg_one hn
  · rw [if_neg hc]
    have hl : 0 < job.steps.length := List.length_pos.mpr hn
    exact pyListGet_of_nonneg_lt (stepIdx_nonneg hn h0)
      (lt_of_le_of_lt (stepIdx_le job now) (by omega))

theorem get_job_status_found {jobs : Store} {id : String} {job : Job} {now : ℚ}
    {st : StepSpec} (hj : lookup jobs id = some job)
    (hst : currentStep job now = some st) :
    get_job_status jobs id now = some (.ok
      { job_id := id
        status := if completedAt job now then "COMPLETED" else "RUNNING"
        step := stepNum job now
        total_steps := job.steps.length
        step_title := st.title
        percent_complete := percentAt job now }) := by
  simp only [get_job_status, hj, hst]

theorem stepNum_pos {job : Job} {now : ℚ} (hn : job.steps ≠ [])
    (h0 : job.start_time ≤ now) : 1 ≤ stepNum job now := by
  unfold stepNum
  by_cases hc : completedAt job now = true
  · rw [if_pos hc]
    have hl : 0 < job.steps.length := List.length_pos.mpr hn
    omega
  · rw [if_neg hc]
    have := stepIdx_nonneg hn h0
    omega

theorem stepNum_le_length (job : Job) (now : ℚ) :
    stepNum job now ≤ (job.steps.length : ℤ) := by
  unfold stepNum
  by_cases hc : completedAt job now = true
  · rw [if_pos hc]
  · rw [if_neg hc]
    have := stepIdx_le job now
    omega

theorem stepNum_mono {job : Job} {now1 now2 : ℚ} (h : now1 ≤ now2) :
    stepNum job now1 ≤ stepNum job now2 := by
  unfold stepNum
  by_cases hc1 : completedAt job now1 = true
  · rw [if_pos hc1, if_pos (completedAt_mono h hc1)]
  · rw [if_neg hc1]
    by_cases hc2 : completedAt job now2 = true
    · rw [if_pos hc2]
      have := stepIdx_le job now1
      omega
    · rw [if_neg hc2]
      have := stepIdx_mono job h
      omega

theorem percentAt_eq_floor {job : Job} {now : ℚ} (hn : job.steps ≠ [])
    (h0 : job.start_time ≤ now) :
    percentAt job now =
      ⌊(stepNum job now : ℚ) / (job.steps.length : ℚ) * 100⌋ := by
  have hl : 0 < job.steps.length := List.length_pos.mpr hn
  have hlq : (0 : ℚ) < (job.steps.length : ℚ) := by exact_mod_cast hl
  have hs : (0 : ℚ) < (stepNum job now : ℚ) := by
    exact_mod_cast lt_of_lt_of_le Int.zero_lt_one (stepNum_pos hn h0)
  have hq : (0 : ℚ) ≤ (stepNum job now : ℚ) / (job.steps.length : ℚ) * 100 := by
    positivity
  unfold percentAt pyTrunc
  rw [if_neg (not_lt.mpr hq)]

theorem percentAt_bounds {job : Job} {now : ℚ} (hn : job.steps ≠ [])
    (h0 : job.start_time ≤ now) :
    0 ≤ percentAt job now ∧ percentAt job now ≤ 100 := by
  have hl : 0 < job.steps.length := List.length_pos.mpr hn
  have hlq : (0 : ℚ) < (job.steps.length : ℚ) := by exact_mod_cast hl
  have hs1 : (1 : ℚ) ≤ (stepNum job now : ℚ) := by exact_mod_cast stepNum_pos hn h0
  have hsn : (stepNum job now : ℚ) ≤ (job.steps.length : ℚ) := by
    exact_mod_cast stepNum_le_length job now
  have hq0 : (0 : ℚ) ≤ (stepNum job now : ℚ) / (job.steps.length : ℚ) * 100 := by
    positivity
  have hq100 : (stepNum job now : ℚ) / (job.steps.length : ℚ) * 100 ≤ 100 := by
    have hdiv : (stepNum job now : ℚ) / (job.steps.length : ℚ) ≤ 1 :=
      (div_le_one hlq).mpr hsn
    nlinarith
  rw [percentAt_eq_floor hn h0]
  constructor
  · exact Int.floor_nonneg.mpr hq0
  · calc ⌊(stepNum job now : ℚ) / (job.steps.length : ℚ) * 100⌋
        ≤ ⌊(100 : ℚ)⌋ := Int.floor_le_floor hq100
      _ = 100 := by norm_num

theorem percentAt_completed {job : Job} {now : ℚ} (hn : job.steps ≠ [])
    (hc : completedAt job now = true) : percentAt job now = 100 := by
  have hl : 0 < job.steps.length := List.length_pos.mpr hn
  have hlq : ((job.steps.length : ℚ)) ≠ 0 := by
    exact_mod_cast Nat.pos_iff_ne_zero.mp hl
  unfold percentAt stepNum
  rw [if_pos hc]
  rw [show (((job.steps.length : ℤ) : ℚ)) = (job.steps.length : ℚ) by push_cast; ring]
  rw [div_self hlq, one_mul]
  unfold pyTrunc
  rw [if_neg (by norm_num)]
  norm_num

theorem completedAt_eq_false {job : Job} {now : ℚ}
    (h : ¬ per_step * (job.steps.length : ℚ) ≤ now - job.start_time) :
    completedAt job now = false := by
  simp [completedAt, h]

theorem optionMap_isSome {α β : Type} {f : α → Option β} {xs : List α}
    (h : ∀ x ∈ xs, (f x).isSome = true) : ∃ ys, optionMap f xs = some ys := by
  induction xs with
  | nil => exact ⟨[], rfl⟩
  | cons x xs ih =>
    obtain ⟨y, hy⟩ := Option.isSome_iff_exists.mp (h x (by simp))
    obtain ⟨ys, hys⟩ := ih (fun a ha => h a (by simp [ha]))
    exact ⟨y :: ys, by simp [optionMap, hy, hys]⟩

/-! ## Claims -/

/-- Claim C2: for a stored job and query instants now1 <= now2, both at or
after the job creation instant, the reported step at now1 is at most the
step at now2, and a COMPLETED status at now1 forces a COMPLETED status at
now2 (completion is absorbing). -/
theorem C2_step_monotone_completion_absorbing
    (jobs : Store) (id : String) (job : Job) (now1 now2 : ℚ)
    (hr : Reachable jobs) (hj : lookup jobs id = some job)
    (h1 : job.start_time ≤ now1) (h12 : now1 ≤ now2) :
    ∃ s1 s2 : JobStatus,
      get_job_status jobs id now1 = some (.ok s1) ∧
      get_job_status jobs id now2 = some (.ok s2) ∧
      s1.step ≤ s2.step ∧
      (s1.status = "COMPLETED" → s2.status = "COMPLETED") := by
  have hsteps := steps_of_reachable hr hj
  have hn : job.steps ≠ [] := by rw [hsteps]; decide
  obtain ⟨st1, hst1⟩ := currentStep_some hn h1
  obtain ⟨st2, hst2⟩ := currentStep_some hn (le_trans h1 h12)
  refine ⟨_, _, get_job_status_found hj hst1, get_job_status_found hj hst2,
    stepNum_mono h12, ?_⟩
  intro hc
  by_cases hc1 : completedAt job now1 = true
  · simp only [completedAt_mono h12 hc1, if_true]
  · simp only [hc1] at hc
    exact absurd hc (by simp)

/-- Claim C2 witness: the two hypotheses hold, and the conclusion follows,
for the demo store queried at instants 1010 and 1100. -/
theorem C2_witness :
    Reachable demoStore ∧
    lookup demoStore "job-1000" = some (jobAt "12345" 1000) ∧
    (jobAt "12345" 1000).start_time ≤ (1010 : ℚ) ∧ (1010 : ℚ) ≤ 1100 ∧
    (∃ s1 s2 : JobStatus,
      get_job_status demoStore "job-1000" 1010 = some (.ok s1) ∧
      get_job_status demoStore "job-1000" 1100 = some (.ok s2) ∧
      s1.step ≤ s2.step ∧
      (s1.status = "COMPLETED" → s2.status = "COMPLETED")) :=
  ⟨Reachable.create "12345" 1000 [] Reachable.nil, rfl, by decide, by decide,
    C2_step_monotone_completion_absorbing demoStore "job-1000" (jobAt "12345" 1000)
      1010 1100 (Reachable.create "12345" 1000 [] Reachable.nil) rfl
      (by decide) (by decide)⟩

/-- Claim C3: for a stored job queried with elapsed time at least
per_step * stepCount, get_job_status reports COMPLETED, step = stepCount and
percent 100; stored jobs have the built-in 5 steps, so the bound is 150
seconds. -/
theorem C3_completed_terminal_state
    (jobs : Store) (id : String) (job : Job) (now : ℚ)
    (hr : Reachable jobs) (hj : lookup jobs id = some job)
    (he : per_step * (job.steps.length : ℚ) ≤ now - job.start_time) :
    ∃ s : JobStatus, get_job_status jobs id now = some (.ok s) ∧
      s.status = "COMPLETED" ∧ s.step = (job.steps.length : ℤ) ∧
      s.total_steps = job.steps.length ∧ s.percent_complete = 100 ∧
      job.steps.length = 5 := by
  have hsteps := steps_of_reachable hr hj
  have hn : job.steps ≠ [] := by rw [hsteps]; decide
  have hc : completedAt job now = true := (completedAt_true_iff job now).mpr he
  obtain ⟨st, hst⟩ : ∃ st, currentStep job now = some st := by
    unfold currentStep
    rw [if_pos hc]
    exact pyListGet_neg_one hn
  refine ⟨_, get_job_status_found hj hst, ?_, ?_, rfl, percentAt_completed hn hc, ?_⟩
  · simp [hc]
  · simp [stepNum, hc]
  · rw [hsteps]
    rfl

/-- Claim C3 witness: the hypotheses hold, and the conclusion follows, for
the demo store queried at instant 1150 (elapsed 150 seconds). -/
theorem C3_witness :
    per_step * (((jobAt "12345" 1000).steps.length : ℕ) : ℚ) ≤ (1150 : ℚ) - (jobAt "12345" 1000).start_time ∧
    (∃ s : JobStatus, get_job_status demoStore "job-1000" 1150 = some (.ok s) ∧
      s.status = "COMPLETED" ∧ s.step = ((jobAt "12345" 1000).steps.length : ℤ) ∧
      s.total_steps = (jobAt "12345" 1000).steps.length ∧ s.percent_complete = 100 ∧
      (jobAt "12345" 1000).steps.length = 5) :=
  have he : per_step * (((jobAt "12345" 1000).steps.length : ℕ) : ℚ) ≤ (1150 : ℚ) - (jobAt "12345" 1000).start_time := by
    norm_num [per_step, jobAt, plugin_tree]
  ⟨he, C3_completed_terminal_state demoStore "job-1000" (jobAt "12345" 1000) 1150
    (Reachable.create "12345" 1000 [] Reachable.nil) rfl he⟩

/-- Claim C4: for a stored job queried with elapsed time in [0, per_step),
get_job_status reports RUNNING at step 1; stored jobs carry the built-in
5-step pipeline, so total_steps is 5 and percent is 20. -/
theorem C4_fresh_job_running_step_one
    (jobs : Store) (id : String) (job : Job) (now : ℚ)
    (hr : Reachable jobs) (hj : lookup jobs id = some job)
    (h0 : 0 ≤ now - job.start_time) (hlt : now - job.start_time < per_step) :
    ∃ s : JobStatus, get_job_status jobs id now = some (.ok s) ∧
      s.status = "RUNNING" ∧ s.step = 1 ∧ s.total_steps = 5 ∧
      s.percent_complete = 20 := by
  have hsteps := steps_of_reachable hr hj
  have hlen : job.steps.length = 5 := by rw [hsteps]; rfl
  have hn : job.steps ≠ [] := by rw [hsteps]; decide
  have hstart : job.start_time ≤ now := by linarith
  have hnc : completedAt job now = false := by
    apply completedAt_eq_false
    rw [hlen]
    push_cast
    nlinarith [per_step_pos]
  have hfloor : ⌊(now - job.start_time) / per_step⌋ = 0 := by
    rw [Int.floor_eq_zero_iff]
    exact Set.mem_Ico.mpr
      ⟨div_nonneg h0 (le_of_lt per_step_pos), (div_lt_one per_step_pos).mpr hlt⟩
  have hidx : stepIdx job now = 0 := by
    unfold stepIdx
    rw [hfloor, hlen]
    decide
  obtain ⟨st, hst⟩ := currentStep_some hn hstart
  have hnum : stepNum job now = 1 := by
    unfold stepNum
    rw [hnc, hidx]
    rfl
  refine ⟨_, get_job_status_found hj hst, ?_, hnum, hlen, ?_⟩
  · rw [hnc]
    rfl
  · unfold percentAt
    rw [hnum, hlen]
    norm_num [pyTrunc]

/-- Claim C4 witness: the hypotheses hold, and the conclusion follows, for
the demo store queried at its creation instant 1000 (elapsed 0). -/
theorem C4_witness :
    (0 : ℚ) ≤ (1000 : ℚ) - (jobAt "12345" 1000).start_time ∧
    (1000 : ℚ) - (jobAt "12345" 1000).start_time < per_step ∧
    (∃ s : JobStatus, get_job_status demoStore "job-1000" 1000 = some (.ok s) ∧
      s.status = "RUNNING" ∧ s.step = 1 ∧ s.total_steps = 5 ∧
      s.percent_complete = 20) :=
  have h0 : (0 : ℚ) ≤ (1000 : ℚ) - (jobAt "12345" 1000).start_time := by
    norm_num [jobAt]
  have hlt : (1000 : ℚ) - (jobAt "12345" 1000).start_time < per_step := by
    norm_num [jobAt, per_step]
  ⟨h0, hlt, C4_fresh_job_running_step_one demoStore "job-1000" (jobAt "12345" 1000)
    1000 (Reachable.create "12345" 1000 [] Reachable.nil) rfl h0 hlt⟩

/-- Claim C6: querying an identifier absent from the job store yields the
structured job-not-found payload, serialized as an error object, and does
not raise. -/
theorem C6_unknown_job_structured_error
    (jobs : Store) (job_id : String) (now : ℚ)
    (h : lookup jobs job_id = none) :
    get_job_status jobs job_id now = some .notFound ∧
    statusPayload .notFound = .obj [("error", .str "job not found")] := by
  refine ⟨?_, rfl⟩
  simp only [get_job_status, h]

/-- Claim C6 witness: the hypothesis holds, and the conclusion follows, for
the empty store and the identifier "nonexistent". -/
theorem C6_witness :
    lookup [] "nonexistent" = none ∧
    (get_job_status [] "nonexistent" 0 = some .notFound ∧
     statusPayload .notFound = .obj [("error", .str "job not found")]) :=
  ⟨rfl, C6_unknown_job_structured_error [] "nonexistent" 0 rfl⟩

/-- Claim C8: the pipeline_run endpoint ignores its pipeline_id path
parameter: any two parameter values give identical results, the payload
carries the new job identifier, and the created job snapshots the single
built-in pipeline definition. -/
theorem C8_pipeline_run_ignores_path_param
    (pid1 pid2 : String) (t : ℚ) (jobs : Store) :
    pipeline_run pid1 t jobs = pipeline_run pid2 t jobs ∧
    (pipeline_run pid1 t jobs).1 = .obj [("job_id", .str (jobIdOfTime t))] ∧
    lookup (pipeline_run pid1 t jobs).2 (jobIdOfTime t) = some (jobAt "12345" t) ∧
    (jobAt "12345" t).steps = plugin_tree ∧
    (jobAt "12345" t).pipeline_id = PIPELINE_DEF_name := by
  refine ⟨rfl, rfl, ?_, rfl, rfl⟩
  rw [show (pipeline_run pid1 t jobs).2 = (jobIdOfTime t, jobAt "12345" t) :: jobs
    from rfl, lookup_cons]
  simp

theorem lookup_demo : lookup demoStore "job-1000" = some (jobAt "12345" 1000) := rfl

theorem completedAt_demo_965 : completedAt (jobAt "12345" 1000) 965 = false := by
  apply completedAt_eq_false
  norm_num [jobAt, per_step, plugin_tree]

theorem stepIdx_demo_965 : stepIdx (jobAt "12345" 1000) 965 = -2 := by
  norm_num [stepIdx, jobAt, per_step, plugin_tree, min_def]

theorem stepNum_demo_965 : stepNum (jobAt "12345" 1000) 965 = -1 := by
  unfold stepNum
  rw [completedAt_demo_965, stepIdx_demo_965]
  rfl

theorem currentStep_demo_965 :
    currentStep (jobAt "12345" 1000) 965 =
      some { title := "segmentor-3", plugin := "pl-legseg v2.3.9",
             previous := some "joiner-2" } := by
  unfold currentStep
  rw [completedAt_demo_965, stepIdx_demo_965]
  rfl

theorem percentAt_demo_965 : percentAt (jobAt "12345" 1000) 965 = -20 := by
  unfold percentAt
  rw [stepNum_demo_965]
  have h20 : ((-1 : ℤ) : ℚ) / (((jobAt "12345" 1000).steps.length : ℕ) : ℚ) * 100
      = ((-20 : ℤ) : ℚ) := by
    norm_num [jobAt, plugin_tree]
  rw [h20]
  unfold pyTrunc
  rw [if_pos (by norm_num), Int.ceil_intCast]

theorem completedAt_demo_849 : completedAt (jobAt "12345" 1000) 849 = false := by
  apply completedAt_eq_false
  norm_num [jobAt, per_step, plugin_tree]

theorem stepIdx_demo_849 : stepIdx (jobAt "12345" 1000) 849 = -6 := by
  norm_num [stepIdx, jobAt, per_step, plugin_tree, min_def]

theorem get_job_status_demo_849_none :
    get_job_status demoStore "job-1000" 849 = none := by
  have hcs : currentStep (jobAt "12345" 1000) 849 = none := by
    unfold currentStep
    rw [completedAt_demo_849, stepIdx_demo_849]
    rfl
  simp only [get_job_status, lookup_demo, hcs]

/-- Claim C5 counterexample: a stored job queried 35 seconds before its
creation instant (a backward wall-clock step) yields percent_complete -20,
outside [0, 100], so the claim fails without a precondition on the query
instant. -/
theorem C5_counterexample :
    get_job_status demoStore "job-1000" 965 = some (.ok
      { job_id := "job-1000", status := "RUNNING", step := -1, total_steps := 5,
        step_title := "segmentor-3", percent_complete := -20 }) ∧
    ¬ (0 ≤ (-20 : ℤ) ∧ (-20 : ℤ) ≤ 100) := by
  constructor
  · rw [get_job_status_found lookup_demo currentStep_demo_965]
    simp [completedAt_demo_965, stepNum_demo_965, percentAt_demo_965]
    rfl
  · decide

/-- Claim C5 (amended): for a stored job queried at or after its creation
instant, percent_complete lies in [0, 100] and equals
floor(step / total_steps * 100). -/
theorem C5_percent_bounds_amended
    (jobs : Store) (id : String) (job : Job) (now : ℚ)
    (hr : Reachable jobs) (hj : lookup jobs id = some job)
    (h0 : job.start_time ≤ now) :
    ∃ s : JobStatus, get_job_status jobs id now = some (.ok s) ∧
      0 ≤ s.percent_complete ∧ s.percent_complete ≤ 100 ∧
      s.percent_complete = ⌊(s.step : ℚ) / (s.total_steps : ℚ) * 100⌋ := by
  have hsteps := steps_of_reachable hr hj
  have hn : job.steps ≠ [] := by rw [hsteps]; decide
  obtain ⟨st, hst⟩ := currentStep_some hn h0
  obtain ⟨hb0, hb100⟩ := percentAt_bounds hn h0
  exact ⟨_, get_job_status_found hj hst, hb0, hb100, percentAt_eq_floor hn h0⟩

/-- Claim C5 witness: the hypotheses hold, and the amended conclusion
follows, for the demo store queried at instant 1042. -/
theorem C5_witness :
    Reachable demoStore ∧
    lookup demoStore "job-1000" = some (jobAt "12345" 1000) ∧
    (jobAt "12345" 1000).start_time ≤ (1042 : ℚ) ∧
    (∃ s : JobStatus, get_job_status demoStore "job-1000" 1042 = some (.ok s) ∧
      0 ≤ s.percent_complete ∧ s.percent_complete ≤ 100 ∧
      s.percent_complete = ⌊(s.step : ℚ) / (s.total_steps : ℚ) * 100⌋) :=
  ⟨Reachable.create "12345" 1000 [] Reachable.nil, rfl, by decide,
    C5_percent_bounds_amended demoStore "job-1000" (jobAt "12345" 1000) 1042
      (Reachable.create "12345" 1000 [] Reachable.nil) rfl (by decide)⟩

/-- Claim C10: for a stored job queried at or after its creation instant,
the clamped index lies in [0, stepCount - 1], the list access is in bounds
and get_job_status returns a result; the precondition is required, since
the demo job queried 151 seconds before creation hits an out-of-range
index and get_job_status fails. -/
theorem C10_step_index_in_bounds
    (jobs : Store) (id : String) (job : Job) (now : ℚ)
    (hr : Reachable jobs) (hj : lookup jobs id = some job)
    (h0 : job.start_time ≤ now) :
    (0 ≤ stepIdx job now ∧ stepIdx job now ≤ (job.steps.length : ℤ) - 1 ∧
      ∃ r, get_job_status jobs id now = some r) ∧
    get_job_status demoStore "job-1000" 849 = none := by
  have hsteps := steps_of_reachable hr hj
  have hn : job.steps ≠ [] := by rw [hsteps]; decide
  obtain ⟨st, hst⟩ := currentStep_some hn h0
  exact ⟨⟨stepIdx_nonneg hn h0, stepIdx_le job now,
    ⟨_, get_job_status_found hj hst⟩⟩, get_job_status_demo_849_none⟩

/-- Claim C10 witness: the hypotheses hold, and the conclusion follows, for
the demo store queried at instant 1010. -/
theorem C10_witness :
    Reachable demoStore ∧
    lookup demoStore "job-1000" = some (jobAt "12345" 1000) ∧
    (jobAt "12345" 1000).start_time ≤ (1010 : ℚ) ∧
    ((0 ≤ stepIdx (jobAt "12345" 1000) 1010 ∧
      stepIdx (jobAt "12345" 1000) 1010 ≤ (((jobAt "12345" 1000).steps.length : ℕ) : ℤ) - 1 ∧
      ∃ r, get_job_status demoStore "job-1000" 1010 = some r) ∧
     get_job_status demoStore "job-1000" 849 = none) :=
  ⟨Reachable.create "12345" 1000 [] Reachable.nil, rfl, by decide,
    C10_step_index_in_bounds demoStore "job-1000" (jobAt "12345" 1000) 1010
      (Reachable.create "12345" 1000 [] Reachable.nil) rfl (by decide)⟩

/-- Claim C1 (code bug): run_pipeline invoked at the distinct instants
100.2 and 100.7 derives the identifier from int(time.time()) alone, so both
invocations return the same identifier "job-100"; identifiers are not
unique across the process lifetime. -/
theorem C1_same_second_id_collision :
    ((501 : ℚ) / 5 ≠ (1007 : ℚ) / 10) ∧
    jobIdOfTime ((501 : ℚ) / 5) = "job-100" ∧
    jobIdOfTime ((1007 : ℚ) / 10) = "job-100" ∧
    (run_pipeline "12345" ((501 : ℚ) / 5) []).1 =
      (run_pipeline "12345" ((1007 : ℚ) / 10) []).1 := by
  have h1 : pyTrunc ((501 : ℚ) / 5) = 100 := by norm_num [pyTrunc]
  have h2 : pyTrunc ((1007 : ℚ) / 10) = 100 := by norm_num [pyTrunc]
  have hid1 : jobIdOfTime ((501 : ℚ) / 5) = "job-100" := by
    rw [jobIdOfTime, h1]
    rfl
  have hid2 : jobIdOfTime ((1007 : ℚ) / 10) = "job-100" := by
    rw [jobIdOfTime, h2]
    rfl
  refine ⟨by norm_num, hid1, hid2, ?_⟩
  show JVal.obj [("job_id", .str (jobIdOfTime ((501 : ℚ) / 5)))] =
    JVal.obj [("job_id", .str (jobIdOfTime ((1007 : ℚ) / 10)))]
  rw [hid1, hid2]

/-- Claim C7 counterexample: a 2xx response whose body parses but is
malformed makes the processing after the try block raise, escaping the
invocation, so the claim fails for success outcomes: a data entry without
a "name" key raises KeyError at the inner dict comprehension, and a data
entry whose name value is a list raises TypeError (unhashable dict
key). -/
theorem C7_counterexample :
    list_chris_plugins (.success (.obj [("collection",
      .obj [("items", .arr [.obj [("data", .arr [.obj []])]])])])) = none ∧
    list_chris_plugins (.success (.obj [("collection",
      .obj [("items", .arr [.obj [("data", .arr
        [.obj [("name", .arr [.str "x"]), ("value", .num 1)]])]])])])) = none :=
  ⟨rfl, rfl⟩

/-- Claim C7 (amended): the fetch applies the bounded 10-second timeout;
every failure outcome of the remote call yields the structured error
payload with the exception message, and every success outcome whose body is
well-formed (data entries are dicts with "name" and "value" keys and
hashable name values) yields a structured plugins payload; only a success
outcome with a malformed body can raise. -/
theorem C7_bounded_timeout_structured_result
    (msg : String) (data : JVal) (hwf : wfBody data = true) :
    (0 : ℚ) < httpTimeout ∧
    list_chris_plugins (.failure msg) = some (.error msg) ∧
    ∃ entries, list_chris_plugins (.success data) = some (.plugins entries) := by
  refine ⟨by norm_num [httpTimeout], rfl, ?_⟩
  unfold wfBody at hwf
  split at hwf
  · exact absurd hwf (by simp)
  rename_i coll hcoll
  split at hwf
  · exact absurd hwf (by simp)
  rename_i itemsVal hitems
  split at hwf
  · exact absurd hwf (by simp)
  rename_i items harr
  have hall : ∀ x ∈ items, (pluginEntry x).isSome = true :=
    List.all_eq_true.mp hwf
  obtain ⟨ys, hys⟩ := optionMap_isSome hall
  refine ⟨ys, ?_⟩
  simp only [list_chris_plugins, hcoll, hitems, harr, hys, Option.map_some']

/-- A well-formed catalog body with one item carrying one complete data
entry. -/
def goodBody : JVal :=
  .obj [("collection", .obj [("items", .arr
    [.obj [("data", .arr
      [.obj [("name", .str "name"), ("value", .str "pl-dcm2niix")]])]])])]

/-- Claim C7 witness: the hypothesis holds, and the conclusion follows, for
the failure message "timed out" and the concrete well-formed body. -/
theorem C7_witness :
    wfBody goodBody = true ∧
    ((0 : ℚ) < httpTimeout ∧
     list_chris_plugins (.failure "timed out") = some (.error "timed out") ∧
     ∃ entries, list_chris_plugins (.success goodBody) = some (.plugins entries)) :=
  ⟨rfl, C7_bounded_timeout_structured_result "timed out" goodBody rfl⟩

/-- Claim C9: get_pacs_image is a pure function of the mrn, so equal inputs
give identical URL payloads, and the payloads coincide exactly when the
inputs do (differing inputs give differing URLs). -/
theorem C9_pacs_image_deterministic_injective (m1 m2 : String) :
    get_pacs_image m1 = get_pacs_image m2 ↔ m1 = m2 := by
  constructor
  · intro h
    simp only [get_pacs_image, JVal.obj.injEq, List.cons.injEq, Prod.mk.injEq,
      JVal.str.injEq, and_true, true_and] at h
    have hd := congrArg String.data h
    simp only [String.data_append] at hd
    exact String.ext (List.append_cancel_left (List.append_cancel_right hd))
  · intro h
    rw [h]

end ChAI
